import Mathlib

/-!
Verification development for the TikTok statistics ingestion/storage core.

The JavaScript sources are shallowly embedded: JS numbers are modelled as
rationals extended with signed infinities and NaN (`JNum`), JS values as the
inductive `JSValue`, JS objects (CSV rows, column-mapping tables) as ordered
association lists with first-occurrence lookup/update semantics (`objGet`,
`objSet`), and the two browser storage tiers (localStorage / IndexedDB) as an
explicit `StorageState` record threaded through the storage operations.
-/

namespace TikTokStats

/-- Model of a JavaScript number: a finite rational, a signed infinity
(`inf true` is `+Infinity`), or `NaN`.  Signed zero is not modelled. -/
inductive JNum where
  | fin : ℚ → JNum
  | inf : Bool → JNum
  | nan : JNum
deriving DecidableEq, Repr

/-- Model of a JavaScript value as far as the embedded code observes it:
strings, numbers, booleans, `null`, `undefined`, and an opaque marker `obj`
for any other (non-primitive) value. -/
inductive JSValue where
  | str : String → JSValue
  | num : JNum → JSValue
  | bool : Bool → JSValue
  | nullV : JSValue
  | undefV : JSValue
  | obj : JSValue
deriving DecidableEq, Repr

/-- True when the `JNum` is `NaN`. -/
def JNum.isNaN : JNum → Bool
  | .nan => true
  | _ => false

/-- True when the `JNum` is a finite number. -/
def JNum.isFinite : JNum → Bool
  | .fin _ => true
  | _ => false

/-- JS `+` on numbers: `NaN` propagates, opposite infinities give `NaN`. -/
def JNum.add : JNum → JNum → JNum
  | .nan, _ => .nan
  | _, .nan => .nan
  | .inf a, .inf b => if a = b then .inf a else .nan
  | .inf a, .fin _ => .inf a
  | .fin _, .inf b => .inf b
  | .fin p, .fin q => .fin (p + q)

/-- JS `*` on numbers: `NaN` propagates, `Infinity * 0 = NaN`. -/
def JNum.mul : JNum → JNum → JNum
  | .nan, _ => .nan
  | _, .nan => .nan
  | .inf a, .inf b => .inf (a = b)
  | .inf a, .fin q => if q = 0 then .nan else .inf (a = decide (0 < q))
  | .fin q, .inf b => if q = 0 then .nan else .inf (b = decide (0 < q))
  | .fin p, .fin q => .fin (p * q)

/-- JS `/` on numbers: `NaN` propagates, `0/0 = NaN`, `p/0 = ±Infinity`,
`p/Infinity = 0` (the sign of zero is not modelled). -/
def JNum.div : JNum → JNum → JNum
  | .nan, _ => .nan
  | _, .nan => .nan
  | .inf _, .inf _ => .nan
  | .inf a, .fin q => if q = 0 then .inf a else .inf (a = decide (0 < q))
  | .fin _, .inf _ => .fin 0
  | .fin p, .fin q =>
      if q = 0 then (if p = 0 then .nan else .inf (decide (0 < p)))
      else .fin (p / q)

/-- Characters matched by the JS regexp class `\\s` (the whitespace set used
by `String.prototype.trim` as well), given by code point. -/
def jsIsWhitespace (c : Char) : Bool :=
  let n := c.toNat
  n = 0x20 || n = 0x09 || n = 0x0a || n = 0x0d || n = 0x0b || n = 0x0c ||
  n = 0xa0 || n = 0x1680 || (0x2000 ≤ n && n ≤ 0x200a) ||
  n = 0x2028 || n = 0x2029 || n = 0x202f || n = 0x205f ||
  n = 0x3000 || n = 0xfeff

/-- JS `String.prototype.trim`: drop leading and trailing whitespace. -/
def jsTrim (s : String) : String :=
  ⟨((s.data.dropWhile jsIsWhitespace).reverse.dropWhile jsIsWhitespace).reverse⟩

/-- JS `String.prototype.toLowerCase` restricted to the character ranges the
embedded constants use: ASCII letters plus the Latin-1 uppercase range
(covering the Swedish `Å`, `Ä`, `Ö` and accented letters). -/
def jsToLowerChar (c : Char) : Char :=
  if 'A' ≤ c ∧ c ≤ 'Z' then Char.ofNat (c.toNat + 32)
  else if 'À' ≤ c ∧ c ≤ 'Þ' ∧ c ≠ '×' then Char.ofNat (c.toNat + 32)
  else c

/-- Lowercasing map on strings (model of `toLowerCase`). -/
def jsToLower (s : String) : String := ⟨s.data.map jsToLowerChar⟩

/-- Auxiliary naive scan: is `t` a contiguous sublist of the second list. -/
def listIsInfixOf (t : List Char) : List Char → Bool
  | [] => t.isEmpty
  | c :: rest => t.isPrefixOf (c :: rest) || listIsInfixOf t rest

/-- JS `a.includes(b)` on strings: substring containment. -/
def strIncludes (s t : String) : Bool := listIsInfixOf t.data s.data

/-- Numeric value of a list of decimal digit characters. -/
def digitsToNat (l : List Char) : ℕ :=
  l.foldl (fun n c => n * 10 + (c.toNat - '0'.toNat)) 0

/-- Parse an unsigned JS decimal literal prefix `digits [. digits] [exp]`
(at least one digit in the mantissa required); returns the value and the
unconsumed suffix, mirroring `parseFloat`'s longest-valid-prefix rule.
An `e`/`E` not followed by digits is not consumed. -/
def parseExpPart (l : List Char) : ℤ × List Char :=
  match l with
  | e :: r =>
      if e = 'e' ∨ e = 'E' then
        let (neg, r') :=
          match r with
          | '+' :: t => (false, t)
          | '-' :: t => (true, t)
          | t => (false, t)
        let ds := r'.takeWhile Char.isDigit
        if ds.isEmpty then ((0 : ℤ), e :: r)
        else ((if neg then -(digitsToNat ds : ℤ) else (digitsToNat ds : ℤ)),
              r'.dropWhile Char.isDigit)
      else ((0 : ℤ), e :: r)
  | [] => ((0 : ℤ), [])

/-- Parse the unsigned mantissa-with-exponent part of a JS number literal. -/
def parseUnsigned (l : List Char) : Option (ℚ × List Char) :=
  let intDigits := l.takeWhile Char.isDigit
  let rest1 := l.dropWhile Char.isDigit
  let fracPair : List Char × List Char :=
    match rest1 with
    | '.' :: r => (r.takeWhile Char.isDigit, r.dropWhile Char.isDigit)
    | _ => ([], rest1)
  let fracDigits := fracPair.1
  if intDigits.isEmpty ∧ fracDigits.isEmpty then none
  else
    let mantissa : ℚ :=
      (digitsToNat intDigits : ℚ) + (digitsToNat fracDigits : ℚ) / ((10 : ℚ) ^ fracDigits.length)
    let expPair := parseExpPart fracPair.2
    some (mantissa * (10 : ℚ) ^ expPair.1, expPair.2)

/-- Read an optional leading sign; returns (isNegative, rest). -/
def readSign (l : List Char) : Bool × List Char :=
  match l with
  | '+' :: r => (false, r)
  | '-' :: r => (true, r)
  | r => (false, r)

/-- Model of the JS builtin `parseFloat` on a string: skip leading whitespace,
optional sign, then either the literal `Infinity` or the longest valid decimal
prefix; no valid prefix gives `NaN`. -/
def jsParseFloat (s : String) : JNum :=
  let l := s.data.dropWhile jsIsWhitespace
  let sr := readSign l
  if "Infinity".data.isPrefixOf sr.2 then .inf (!sr.1)
  else
    match parseUnsigned sr.2 with
    | some (q, _) => .fin (if sr.1 then -q else q)
    | none => .nan

/-- Value of a list of hex digit characters. -/
def hexDigitsToNat (l : List Char) : ℕ :=
  l.foldl (fun n c =>
    n * 16 + (if c.isDigit then c.toNat - '0'.toNat
              else if 'a' ≤ c ∧ c ≤ 'f' then c.toNat - 'a'.toNat + 10
              else c.toNat - 'A'.toNat + 10)) 0

/-- Is the character a hexadecimal digit. -/
def isHexDigit (c : Char) : Bool :=
  c.isDigit ∨ ('a' ≤ c ∧ c ≤ 'f') ∨ ('A' ≤ c ∧ c ≤ 'F')

/-- Model of ECMAScript `StringToNumber` (the conversion behind `isNaN(s)` and
numeric comparison on strings): trim, empty gives 0, otherwise the whole
remaining string must be a numeric literal (decimal, `Infinity`, or an
unsigned `0x`/`0o`/`0b` radix literal). -/
def jsToNumberStr (s : String) : JNum :=
  let t := ((s.data.dropWhile jsIsWhitespace).reverse.dropWhile jsIsWhitespace).reverse
  if t.isEmpty then .fin 0
  else
    match t with
    | '0' :: x :: rest =>
        if x = 'x' ∨ x = 'X' then
          if ¬rest.isEmpty ∧ rest.all isHexDigit then .fin (hexDigitsToNat rest : ℚ) else .nan
        else if x = 'o' ∨ x = 'O' then
          if ¬rest.isEmpty ∧ rest.all (fun c => '0' ≤ c ∧ c ≤ '7') then
            .fin ((rest.foldl (fun n c => n * 8 + (c.toNat - '0'.toNat)) 0 : ℕ) : ℚ)
          else .nan
        else if x = 'b' ∨ x = 'B' then
          if ¬rest.isEmpty ∧ rest.all (fun c => c = '0' ∨ c = '1') then
            .fin ((rest.foldl (fun n c => n * 2 + (c.toNat - '0'.toNat)) 0 : ℕ) : ℚ)
          else .nan
        else
          match parseUnsigned t with
          | some (q, []) => .fin q
          | _ => .nan
    | _ =>
        let sr := readSign t
        if sr.2 = "Infinity".data then .inf (!sr.1)
        else
          match parseUnsigned sr.2 with
          | some (q, []) => .fin (if sr.1 then -q else q)
          | _ => .nan

/-- ECMAScript `ToNumber` on a modelled JS value (the opaque `obj` marker is
taken to stringify to something non-numeric). -/
def jsToNumber : JSValue → JNum
  | .num n => n
  | .str s => jsToNumberStr s
  | .bool b => .fin (if b then 1 else 0)
  | .nullV => .fin 0
  | .undefV => .nan
  | .obj => .nan

/-- JS truthiness of a modelled value. -/
def jsTruthy : JSValue → Bool
  | .str s => s ≠ ""
  | .num (.fin q) => q ≠ 0
  | .num (.inf _) => true
  | .num .nan => false
  | .bool b => b
  | .nullV => false
  | .undefV => false
  | .obj => true

/-- JS `a || b`. -/
def jsOr (a b : JSValue) : JSValue := if jsTruthy a then a else b

/-- JS `v > q` for a modelled value against a numeric literal: both sides go
through `ToNumber`; `NaN` compares false. -/
def jsGtNum (v : JSValue) (q : ℚ) : Bool :=
  match jsToNumber v with
  | .fin p => decide (q < p)
  | .inf b => b
  | .nan => false

/-- Model of `parseFloat(v)` on an arbitrary value: `parseFloat` stringifies
its argument first; for each modelled constructor this is the result of
parsing that string form (finite numbers round-trip, `Infinity`/`NaN`
stringify to unparseable-or-infinite forms, other primitives to
non-numeric text). -/
def jsParseFloatVal : JSValue → JNum
  | .str s => jsParseFloat s
  | .num (.fin q) => .fin q
  | .num (.inf b) => .inf b
  | .num .nan => .nan
  | .bool _ => .nan
  | .nullV => .nan
  | .undefV => .nan
  | .obj => .nan

/-- JS `Number.prototype.toFixed(2)` followed by `parseFloat` of the result:
finite numbers are rounded to two decimals (nearest, ties to the larger),
infinities and `NaN` pass through. -/
def round2 (q : ℚ) : ℚ := ((⌊q * 100 + 1 / 2⌋ : ℤ) : ℚ) / 100

/-- The `parseFloat(x.toFixed(2))` composition used by the metric derivation. -/
def toFixed2ThenParse : JNum → JNum
  | .fin q => .fin (round2 q)
  | .inf b => .inf b
  | .nan => .nan

/-- A JS object (CSV row) as an ordered association list; keys are unique in
every object the embedded code builds, and the operations below use
first-occurrence semantics so they agree with JS objects. -/
abbrev Row : Type := List (String × JSValue)

/-- Property read `row[key]`: first binding wins, a missing key reads as
`undefined`. -/
def objGet (row : Row) (key : String) : JSValue :=
  match row.find? (fun p => p.1 = key) with
  | some p => p.2
  | none => .undefV

/-- Property write `row[key] = v`: replace the value at the first occurrence
of the key, or append a new binding (JS insertion-order semantics). -/
def objSet : Row → String → JSValue → Row
  | [], key, v => [(key, v)]
  | p :: rest, key, v =>
      if p.1 = key then (key, v) :: rest else p :: objSet rest key v

-- ----------------------------------------------------------------
-- src/utils/dataProcessing.js : parseNumericValue (spec §4.2 `toNumber`)
-- ----------------------------------------------------------------

/-- The cleaning pipeline inside `parseNumericValue`: strip all whitespace,
drop every dot that is immediately followed by three digits (thousands
separators), then turn commas into decimal points. -/
def stripThousandDots : List Char → List Char
  | [] => []
  | c :: rest =>
      if c = '.' ∧ (rest.take 3).length = 3 ∧ (rest.take 3).all Char.isDigit then
        stripThousandDots rest
      else c :: stripThousandDots rest

/-- String cleaning used by `parseNumericValue` before `parseFloat`. -/
def cleanNumericString (s : String) : String :=
  ⟨(stripThousandDots (s.data.filter (fun c => !jsIsWhitespace c))).map
      (fun c => if c = ',' then '.' else c)⟩

/-- Embedding of `parseNumericValue` from `src/utils/dataProcessing.js`:
`null`/`undefined`/`''` give 0; a string is cleaned and `parseFloat`ed and the
result returned unless `NaN`; a non-`NaN` number is returned unchanged; every
other input gives 0. -/
def parseNumericValue (v : JSValue) : JNum :=
  if v = .nullV ∨ v = .undefV ∨ v = .str "" then .fin 0
  else
    match v with
    | .str s =>
        match jsParseFloat (cleanNumericString s) with
        | .nan => .fin 0
        | n => n
    | .num .nan => .fin 0
    | .num n => n
    | _ => .fin 0

-- ----------------------------------------------------------------
-- src/utils/constants.js : categories, indicators, field tables
-- ----------------------------------------------------------------

/-- The closed CSV-type enumeration (`CSV_TYPES`). -/
inductive CsvType where
  | overview
  | video
  | facebook
  | instagram
  | unknown
deriving DecidableEq, Repr

/-- `CSV_TYPE_INDICATORS`, in `Object.entries` (insertion) order. -/
def CSV_TYPE_INDICATORS : List (CsvType × List String) :=
  [(.overview,
    ["Datum", "Målgrupp som nåtts", "Profilvisningar", "Nya följare", "Tappade följare",
     "Videovisningar", "Nettotillväxt",
     "Date", "Reached audience", "Profile views", "New followers", "Lost followers",
     "Video Views", "Net growth"]),
   (.video,
    ["Videotitel", "Videolänk", "Publiceringstid", "Lägg till i Favoriter",
     "Video title", "Video link", "Publishing time", "Add to favorites"]),
   (.facebook,
    ["Page name", "Sidnamn", "Facebook Page", "Sida",
     "Page total reach", "Page total impressions",
     "Sidans totala räckvidd", "Sidans totala visningar",
     "Post reach", "Post impressions", "Räckvidd för inlägg", "Visningar av inlägg"]),
   (.instagram,
    ["Instagram username", "Instagram-användarnamn",
     "Profile visits", "Profilbesök",
     "Accounts engaged", "Konton som interagerade",
     "Instagram reach", "Instagram-räckvidd",
     "Impressions", "Stories impressions", "Videovisningar",
     "Followers", "Reach", "Accounts reached"])]

/-- `REQUIRED_OVERVIEW_FIELDS`. -/
def REQUIRED_OVERVIEW_FIELDS : List String :=
  ["date", "video_views", "reach", "profile_views", "likes", "comments", "shares"]

/-- `REQUIRED_VIDEO_FIELDS`. -/
def REQUIRED_VIDEO_FIELDS : List String :=
  ["title", "publish_time", "views", "likes", "comments", "shares"]

/-- `OVERVIEW_FIELDS` (internal name to Swedish display name). -/
def OVERVIEW_FIELDS : List (String × String) :=
  [("date", "Datum"), ("video_views", "Videovisningar"), ("reach", "Målgrupp som nåtts"),
   ("profile_views", "Profilvisningar"), ("likes", "Gilla-markeringar"),
   ("shares", "Delningar"), ("comments", "Kommentarer"),
   ("product_clicks", "Klick på produktlänkar"),
   ("product_purchase", "Produktlänk genomför betalning"),
   ("product_gmv", "GMV för produktlänkar"), ("website_clicks", "Webbplatsklickar"),
   ("phone_clicks", "Telefonnummerklickar"), ("collected_leads", "Insamlade leads"),
   ("app_download_clicks", "Klick på nedladdningslänk för app"),
   ("follower_net_growth", "Nettotillväxt"), ("new_followers", "Nya följare"),
   ("lost_followers", "Tappade följare")]

/-- `VIDEO_FIELDS` (internal name to Swedish display name). -/
def VIDEO_FIELDS : List (String × String) :=
  [("title", "Videotitel"), ("link", "Videolänk"), ("publish_time", "Publiceringstid"),
   ("views", "Videovisningar"), ("likes", "Gilla-markeringar"),
   ("comments", "Kommentarer"), ("shares", "Delningar"),
   ("favorites", "Lägg till i Favoriter")]

-- ----------------------------------------------------------------
-- src/utils/webDataProcessor.js : detection, validation, processing
-- ----------------------------------------------------------------

/-- Header normalization used by detection and validation:
`h ? h.trim().toLowerCase() : ''`. -/
def normalizeHeader (h : String) : String :=
  if h = "" then "" else jsToLower (jsTrim h)

/-- For one indicator list, the number of indicators that occur among the
normalized headers as an exact or substring match (`detectCSVType`'s
per-type match count). -/
def countIndicatorMatches (normHeaders : List String) (indicators : List String) : ℕ :=
  (indicators.filter (fun indicator =>
    normHeaders.any (fun header =>
      jsToLower header = jsToLower indicator ∨
      strIncludes (jsToLower header) (jsToLower indicator)))).length

/-- The `bestMatch` accumulation loop of `detectCSVType`: start from
`(unknown, 0)` and keep the first entry whose count strictly exceeds the
current best. -/
def bestMatchFold (ms : List (CsvType × ℕ)) : CsvType × ℕ :=
  ms.foldl (fun best p => if p.2 > best.2 then p else best) (CsvType.unknown, 0)

/-- The fallback heuristic cascade of `detectCSVType`, applied when the best
indicator count is below 2. -/
def detectHeuristics (normHeaders : List String) : CsvType :=
  if normHeaders.any (fun h => h = "datum" ∨ h = "date") then .overview
  else if normHeaders.any (fun h =>
      h = "videotitel" ∨ h = "video title" ∨ h = "title" ∨ strIncludes h "video") then .video
  else if normHeaders.any (fun h => strIncludes h "facebook" ∨ strIncludes h "page") then .facebook
  else if normHeaders.any (fun h => strIncludes h "instagram" ∨ strIncludes h "insta") then .instagram
  else .unknown

/-- Embedding of `detectCSVType` (well-formed input path; the JS function
throws only on a `null`/non-array argument, which the `List String` input
type excludes). -/
def detectCSVType (headers : List String) : CsvType :=
  let normHeaders := headers.map normalizeHeader
  let matchCounts := CSV_TYPE_INDICATORS.map (fun p => (p.1, countIndicatorMatches normHeaders p.2))
  let best := bestMatchFold matchCounts
  if best.2 < 2 then detectHeuristics normHeaders else best.1

/-- Result record of `validateRequiredColumns`. -/
structure ValidationResult where
  isValid : Bool
  missingColumns : List String
deriving DecidableEq, Repr

/-- A column-mapping table: external header string to internal field name,
in insertion order (a JS object). -/
abbrev Mappings : Type := List (String × String)

/-- Display name for a missing required field (`OVERVIEW_FIELDS[f]` or
`VIDEO_FIELDS[f]`, falling back to the internal name). -/
def displayNameFor (cat : CsvType) (field : String) : String :=
  let displayFields := if cat = .overview then OVERVIEW_FIELDS else VIDEO_FIELDS
  match displayFields.find? (fun p => p.1 = field) with
  | some p => p.2
  | none => field

/-- Embedding of `validateRequiredColumns` (well-formed input path): for each
required internal field, the lowercased external names mapped to it must meet
the normalized headers. -/
def validateRequiredColumns (headers : List String) (columnMappings : Mappings)
    (cat : CsvType) : ValidationResult :=
  let normHeaders := headers.map normalizeHeader
  let requiredFields := if cat = .overview then REQUIRED_OVERVIEW_FIELDS else REQUIRED_VIDEO_FIELDS
  let reverseFor := fun (field : String) =>
    (columnMappings.filter (fun p => p.2 = field)).map (fun p => jsToLower p.1)
  let missing := (requiredFields.filter (fun rf =>
      ¬ (reverseFor rf).any (fun name => normHeaders.contains (jsToLower name)))).map
    (displayNameFor cat)
  { isValid := missing.isEmpty, missingColumns := missing }

/-- The platform/message pair produced by `checkWrongPlatform`. -/
structure WrongPlatformInfo where
  platform : String
  message : String
deriving DecidableEq, Repr

/-- Embedding of `checkWrongPlatform`: non-TikTok categories produce a
diagnostic, the two supported categories produce none. -/
def checkWrongPlatform : CsvType → Option WrongPlatformInfo
  | .facebook =>
      some { platform := "Facebook"
             message := "Detta verkar vara Facebook-statistik, inte TikTok-data. Appen stödjer endast TikTok-statistikfiler." }
  | .instagram =>
      some { platform := "Instagram"
             message := "Detta verkar vara Instagram-statistik, inte TikTok-data. Appen stödjer endast TikTok-statistikfiler." }
  | .unknown =>
      some { platform := "Okänd"
             message := "Kunde inte identifiera denna fil som TikTok-statistik. Kontrollera att du valt rätt fil." }
  | _ => none

/-- Embedding of the local `normalizeText` of `webDataProcessor.js`: trim,
lowercase, collapse whitespace runs to one space, strip zero-width
characters. -/
def collapseWs : List Char → List Char
  | [] => []
  | c :: rest =>
      if jsIsWhitespace c then ' ' :: collapseWs (rest.dropWhile jsIsWhitespace)
      else c :: collapseWs rest
termination_by l => l.length
decreasing_by
  · have := (List.dropWhile_sublist (l := rest) jsIsWhitespace).length_le
    simp only [List.length_cons]
    omega
  · simp only [List.length_cons]
    omega

/-- Is the character one of the invisible characters stripped by
`normalizeText` (`​`-`‍`, `﻿`). -/
def isInvisibleChar (c : Char) : Bool :=
  (0x200b ≤ c.toNat && c.toNat ≤ 0x200d) || c.toNat = 0xfeff

/-- `normalizeText` from `webDataProcessor.js`. -/
def normalizeText (s : String) : String :=
  ⟨(collapseWs (jsToLower (jsTrim s)).data).filter (fun c => !isInvisibleChar c)⟩

/-- Embedding of `mapRow`: each raw column is renamed through the first
mapping entry whose normalized key matches the normalized external name
(falling back to the original name, also when the mapped internal name is
the empty string, which is falsy in JS), and full-string numeric strings are
parsed to numbers. -/
def mapRow (row : Row) (columnMappings : Mappings) : Row :=
  row.foldl (fun result p =>
    let externalName := p.1
    let value := p.2
    let normalizedExternal := normalizeText externalName
    let internalName :=
      match columnMappings.find? (fun q => normalizeText q.1 = normalizedExternal) with
      | some q => if q.2 = "" then externalName else q.2
      | none => externalName
    let processedValue :=
      match value with
      | .str s =>
          if ¬(jsToNumberStr s).isNaN ∧ jsTrim s ≠ "" then .num (jsParseFloat s)
          else .str s
      | v => v
    objSet result internalName processedValue) []

/-- Embedding of `calculateOverviewFields`: `interactions` is the
`parseFloat(x || 0)` sum of likes, comments and shares; `engagement_rate` is
`parseFloat(((interactions / reach) * 100).toFixed(2))` when `reach` is
truthy and `> 0`, else 0. -/
def calculateOverviewFields (row : Row) : Row :=
  let likes := jsParseFloatVal (jsOr (objGet row "likes") (.num (.fin 0)))
  let comments := jsParseFloatVal (jsOr (objGet row "comments") (.num (.fin 0)))
  let shares := jsParseFloatVal (jsOr (objGet row "shares") (.num (.fin 0)))
  let interactions := (likes.add comments).add shares
  let result := objSet row "interactions" (.num interactions)
  let reach := objGet row "reach"
  if jsTruthy reach ∧ jsGtNum reach 0 then
    objSet result "engagement_rate"
      (.num (toFixed2ThenParse ((interactions.div (jsToNumber reach)).mul (.fin 100))))
  else
    objSet result "engagement_rate" (.num (.fin 0))

/-- Embedding of `calculateVideoFields`: like the overview variant but with
`favorites` added and `views` as the divisor. -/
def calculateVideoFields (row : Row) : Row :=
  let likes := jsParseFloatVal (jsOr (objGet row "likes") (.num (.fin 0)))
  let comments := jsParseFloatVal (jsOr (objGet row "comments") (.num (.fin 0)))
  let shares := jsParseFloatVal (jsOr (objGet row "shares") (.num (.fin 0)))
  let favorites := jsParseFloatVal (jsOr (objGet row "favorites") (.num (.fin 0)))
  let interactions := ((likes.add comments).add shares).add favorites
  let result := objSet row "interactions" (.num interactions)
  let views := objGet row "views"
  if jsTruthy views ∧ jsGtNum views 0 then
    objSet result "engagement_rate"
      (.num (toFixed2ThenParse ((interactions.div (jsToNumber views)).mul (.fin 100))))
  else
    objSet result "engagement_rate" (.num (.fin 0))

/-- One batch step of `processTikTokData`: map every row of the batch through
`mapRow`, then through the category's derivation. -/
def processBatchRows (cat : CsvType) (columnMappings : Mappings) (batch : List Row) : List Row :=
  let mappedBatch := batch.map (fun row => mapRow row columnMappings)
  if cat = .overview then mappedBatch.map calculateOverviewFields
  else mappedBatch.map calculateVideoFields

/-- The batch loop of `processTikTokData`: slices of 500 rows are processed
and concatenated in order. -/
def batchLoop (cat : CsvType) (columnMappings : Mappings) (rows : List Row) : List Row :=
  if rows.isEmpty then []
  else processBatchRows cat columnMappings (rows.take 500) ++
       batchLoop cat columnMappings (rows.drop 500)
termination_by rows.length
decreasing_by
  rename_i hne
  simp only [List.length_drop]
  cases rows with
  | nil => simp at hne
  | cons a l =>
      simp only [List.length_cons]
      omega

/-- The parsed CSV handed to the pipeline by the external parser collaborator
(`Papa.parse` with `header: true`): the header field list and the data rows. -/
structure ParsedCsv where
  fields : List String
  data : List Row
deriving DecidableEq, Repr

/-- The metadata bundle returned by `processTikTokData` (the `processedAt`
timestamp and the date range, which no verified claim touches, are omitted
from the model; `wrongPlatform` is always `null` on the success path and is
likewise omitted). -/
structure ProcMeta where
  rowCount : ℕ
  totalRows : ℕ
  isLimited : Bool
  fields : List String
  missingColumns : List String
deriving DecidableEq, Repr

/-- The resolved result of `processTikTokData`. -/
structure ProcResult where
  data : List Row
  csvType : CsvType
  meta : ProcMeta
deriving DecidableEq, Repr

/-- The rejection reasons of `processTikTokData` after a successful parse:
an empty file, or a wrong-platform diagnostic. -/
inductive ProcError where
  | emptyFile : ProcError
  | wrongPlatform : WrongPlatformInfo → ProcError
deriving DecidableEq, Repr

/-- The post-derivation annotation step: for video data every processed row
gets `publication_count = 1`. -/
def annotatePublicationCount (cat : CsvType) (rows : List Row) : List Row :=
  if cat = .video then rows.map (fun item => objSet item "publication_count" (.num (.fin 1)))
  else rows

/-- Embedding of `processTikTokData` from the successful parse onwards:
empty-data rejection, category resolution (`forcedType || detectCSVType`),
wrong-platform rejection, soft required-column validation, the 5000-row
performance ceiling, the 500-row batch loop, and the video
`publication_count` annotation. -/
def processParsed (parsed : ParsedCsv) (columnMappings : Mappings)
    (forcedType : Option CsvType) : Except ProcError ProcResult :=
  if parsed.data.isEmpty then .error .emptyFile
  else
    let csvType := forcedType.getD (detectCSVType parsed.fields)
    match checkWrongPlatform csvType with
    | some wp => .error (.wrongPlatform wp)
    | none =>
        let validation := validateRequiredColumns parsed.fields columnMappings csvType
        let truncated := parsed.data.length > 5000
        let dataToProcess := if truncated then parsed.data.take 5000 else parsed.data
        let processedData :=
          annotatePublicationCount csvType (batchLoop csvType columnMappings dataToProcess)
        .ok { data := processedData
              csvType := csvType
              meta := { rowCount := processedData.length
                        totalRows := parsed.data.length
                        isLimited := truncated
                        fields := parsed.fields
                        missingColumns := validation.missingColumns } }

-- ----------------------------------------------------------------
-- src/components/ColumnMappingEditor/ColumnMappingEditor.jsx :
-- handleValueChange (the spec's setMapping)
-- ----------------------------------------------------------------

/-- JS `delete obj[key]` on the association-list object model. -/
def objDeleteKey (m : Mappings) (key : String) : Mappings :=
  m.eraseP (fun p => p.1 = key)

/-- JS `obj[key] = v` on a string-valued object. -/
def objSetKey : Mappings → String → String → Mappings
  | [], key, v => [(key, v)]
  | p :: rest, key, v =>
      if p.1 = key then (key, v) :: rest else p :: objSetKey rest key v

/-- Embedding of `handleValueChange`: the first component of the result is the
mapping table after the edit, the second the validation error message set by
the handler (`none` models `setError(null)`).  `originalName` is the external
name the edited input previously showed; the JSX passes `null` there in one
call path, modelled by `none`. -/
def handleValueChange (originalName : Option String) (internalName newValue : String)
    (mappings : Mappings) : Mappings × Option String :=
  if jsTrim newValue = "" then
    (mappings, some "Kolumnnamn kan inte vara tomt")
  else
    match mappings.find? (fun p =>
        some p.1 ≠ originalName ∧ p.1 = newValue ∧ p.2 ≠ internalName) with
    | some p =>
        (mappings,
         some ("Kolumnnamnet \"" ++ newValue ++ "\" används redan för fältet \"" ++
               p.2 ++ "\". Välj ett annat namn."))
    | none =>
        let m1 := match originalName with
          | some origName =>
              if origName ≠ "" ∧ origName ≠ newValue then objDeleteKey mappings origName
              else mappings
          | none => mappings
        let m2 := if newValue ≠ "" ∧ jsTrim newValue ≠ "" then objSetKey m1 newValue internalName
                  else m1
        (m2, none)

-- ----------------------------------------------------------------
-- src/utils/webStorageService.js : the two-tier storage manager
-- ----------------------------------------------------------------

/-- An account record (`saveAccount` merges full records, so a fixed-shape
structure models the JS object). -/
structure Account where
  id : String
  name : String
  hasOverviewData : Bool
  hasVideoData : Bool
  lastOverviewUpdate : Option ℕ
  lastVideoUpdate : Option ℕ
deriving DecidableEq, Repr

/-- The dataset payload `dataWithMeta` written by `saveAccountData`. -/
structure DataWithMeta where
  accountId : String
  dataType : CsvType
  timestamp : ℕ
  data : List Row
deriving DecidableEq, Repr

/-- A record in one of the two IndexedDB dataset object stores, with its
auto-increment key. -/
structure IdbStored where
  id : ℕ
  payload : DataWithMeta
deriving DecidableEq, Repr

/-- The observable state of the two browser storage tiers: localStorage keys
(the account list and the per-account dataset snapshots, keyed by
`prefix + accountId`, with the two prefixes kept as two fields) and the three
IndexedDB object stores with the dataset stores' auto-increment counters.
`lsAccounts = none` models a missing/unparseable `tiktok_stats_accounts`
key. -/
structure StorageState where
  lsAccounts : Option (List Account)
  lsOverviewData : List (String × DataWithMeta)
  lsVideoData : List (String × DataWithMeta)
  idbAccounts : List Account
  idbOverviewData : List IdbStored
  idbVideoData : List IdbStored
  nextOverviewId : ℕ
  nextVideoId : ℕ
deriving DecidableEq, Repr

/-- Embedding of `getAccounts`: localStorage first; only when that list is
missing or empty is IndexedDB read, and a non-empty IndexedDB result is
copied back into localStorage. -/
def getAccountsStateful (s : StorageState) : List Account × StorageState :=
  let accounts := s.lsAccounts.getD []
  if accounts.isEmpty then
    let accounts := s.idbAccounts
    if accounts.isEmpty then (accounts, s)
    else (accounts, { s with lsAccounts := some accounts })
  else (accounts, s)

/-- Replace the first list entry with the given account's id, reporting
whether one was found (`findIndex` + in-place assignment in JS; the JS merge
`{...old, ...account}` of two full records is the new record). -/
def setFirstById : List Account → Account → List Account × Bool
  | [], _ => ([], false)
  | x :: xs, a =>
      if x.id = a.id then (a :: xs, true)
      else
        let r := setFirstById xs a
        (x :: r.1, r.2)

/-- IndexedDB `put` on the accounts store (keyed by `id`): replace the first
record with the same key or append. -/
def putAccountById : List Account → Account → List Account
  | [], a => [a]
  | x :: xs, a => if x.id = a.id then a :: xs else x :: putAccountById xs a

/-- Embedding of `saveAccount`: update-or-append in the (`getAccounts`-read)
account list, generate a time-based id when absent, then write the record to
IndexedDB and the whole list to localStorage. -/
def saveAccount (account : Account) (now : ℕ) (s : StorageState) : Account × StorageState :=
  let gs := getAccountsStateful s
  let accounts := gs.1
  let s1 := gs.2
  if account.id ≠ "" then
    let rep := setFirstById accounts account
    let accounts2 := if rep.2 then rep.1 else accounts ++ [account]
    (account,
     { s1 with idbAccounts := putAccountById s1.idbAccounts account
               lsAccounts := some accounts2 })
  else
    let account2 := { account with id := toString now }
    (account2,
     { s1 with idbAccounts := putAccountById s1.idbAccounts account2
               lsAccounts := some (accounts ++ [account2]) })

/-- Embedding of `getAccount`: IndexedDB lookup by id, falling back to the
localStorage account list. -/
def getAccount (accountId : String) (s : StorageState) : Option Account :=
  match s.idbAccounts.find? (fun a => a.id = accountId) with
  | some a => some a
  | none => (s.lsAccounts.getD []).find? (fun a => a.id = accountId)

/-- The `dataStatus` merge performed by `saveAccountData` through
`updateAccountDataStatus`. -/
def applyDataStatus (a : Account) (cat : CsvType) (now : ℕ) : Account :=
  if cat = .overview then { a with hasOverviewData := true, lastOverviewUpdate := some now }
  else { a with hasVideoData := true, lastVideoUpdate := some now }

/-- Embedding of `updateAccountDataStatus` for the status objects built by
`saveAccountData`: `none` models the thrown account-not-found error. -/
def updateAccountDataStatus (accountId : String) (cat : CsvType) (now : ℕ)
    (s : StorageState) : Option (Account × StorageState) :=
  match getAccount accountId s with
  | none => none
  | some a => some (saveAccount (applyDataStatus a cat now) now s)

/-- The per-row normalization performed by `saveAccountData`: stamp the owning
account id, then normalize the category's primary-date field to ISO form when
the external `Date` parser accepts it.  `dateFmt` models
`d => new Date(d).toISOString()` guarded by the `isNaN(getTime())` check:
`none` means the value was not a parseable date and is left unchanged. -/
def processSavedRow (cat : CsvType) (dateFmt : JSValue → Option String) (accountId : String)
    (item : Row) : Row :=
  let processed := objSet item "accountId" (.str accountId)
  if cat = .overview ∧ jsTruthy (objGet processed "date") then
    match dateFmt (objGet processed "date") with
    | some iso => objSet processed "date" (.str iso)
    | none => processed
  else if cat = .video ∧ jsTruthy (objGet processed "publish_time") then
    match dateFmt (objGet processed "publish_time") with
    | some iso => objSet processed "publish_time" (.str iso)
    | none => processed
  else processed

/-- localStorage `setItem` on a dataset-snapshot key space. -/
def lsPutDataset : List (String × DataWithMeta) → String → DataWithMeta →
    List (String × DataWithMeta)
  | [], key, v => [(key, v)]
  | p :: rest, key, v => if p.1 = key then (key, v) :: rest else p :: lsPutDataset rest key v

/-- Write the dataset snapshot under its `prefix + accountId` localStorage
key. -/
def lsSetDataset (s : StorageState) (cat : CsvType) (accountId : String)
    (dwm : DataWithMeta) : StorageState :=
  if cat = .overview then
    { s with lsOverviewData := lsPutDataset s.lsOverviewData accountId dwm }
  else
    { s with lsVideoData := lsPutDataset s.lsVideoData accountId dwm }

/-- Read the dataset snapshot for `prefix + accountId` from localStorage. -/
def lsGetDataset (s : StorageState) (cat : CsvType) (accountId : String) : Option DataWithMeta :=
  let store := if cat = .overview then s.lsOverviewData else s.lsVideoData
  match store.find? (fun p => p.1 = accountId) with
  | some p => some p.2
  | none => none

/-- The category's IndexedDB dataset store (`STORE_OVERVIEW_DATA` or
`STORE_VIDEO_DATA`). -/
def idbDatasetStore (cat : CsvType) (s : StorageState) : List IdbStored :=
  if cat = .overview then s.idbOverviewData else s.idbVideoData

/-- Delete every IndexedDB dataset record whose `accountId` index matches
(the `getByIndex` + per-item `deleteById` loop of `saveAccountData`). -/
def idbDeleteDatasets (s : StorageState) (cat : CsvType) (accountId : String) : StorageState :=
  if cat = .overview then
    { s with idbOverviewData := s.idbOverviewData.filter (fun r => r.payload.accountId ≠ accountId) }
  else
    { s with idbVideoData := s.idbVideoData.filter (fun r => r.payload.accountId ≠ accountId) }

/-- IndexedDB `put` with an auto-increment key on the category's dataset
store. -/
def idbInsertDataset (s : StorageState) (cat : CsvType) (dwm : DataWithMeta) : StorageState :=
  if cat = .overview then
    { s with idbOverviewData := s.idbOverviewData ++ [{ id := s.nextOverviewId, payload := dwm }]
             nextOverviewId := s.nextOverviewId + 1 }
  else
    { s with idbVideoData := s.idbVideoData ++ [{ id := s.nextVideoId, payload := dwm }]
             nextVideoId := s.nextVideoId + 1 }

/-- Embedding of `saveAccountData`.  `now` models `Date.now()`, `dataSize`
models `JSON.stringify(data).length` (the fast-tier size check), `dateFmt`
the external `Date` parser.  The boolean mirrors the JS return value: `false`
both for the empty-`accountId` guard (state untouched) and for the
account-not-found throw inside `updateAccountDataStatus` (dataset writes
already performed, matching the JS catch). -/
def saveAccountData (accountId : String) (cat : CsvType) (data : List Row) (now : ℕ)
    (dataSize : ℕ) (dateFmt : JSValue → Option String) (s : StorageState) :
    Bool × StorageState :=
  if accountId = "" then (false, s)
  else
    let processedData := data.map (processSavedRow cat dateFmt accountId)
    let dataWithMeta : DataWithMeta :=
      { accountId := accountId, dataType := cat, timestamp := now, data := processedData }
    let s1 := if dataSize < 1000000 then lsSetDataset s cat accountId dataWithMeta else s
    let s2 := idbDeleteDatasets s1 cat accountId
    let s3 := idbInsertDataset s2 cat dataWithMeta
    match updateAccountDataStatus accountId cat now s3 with
    | none => (false, s3)
    | some r => (true, r.2)

/-- Stable insertion of an IndexedDB record into a timestamp-descending list
(model of the `(a, b) => b.timestamp - a.timestamp` comparator sort; only the
position of the maximal timestamp is observable through `getAccountData`). -/
def insertByTsDesc (x : IdbStored) : List IdbStored → List IdbStored
  | [] => [x]
  | y :: ys => if y.payload.timestamp < x.payload.timestamp then x :: y :: ys
               else y :: insertByTsDesc x ys

/-- Sort IndexedDB records by timestamp, newest first. -/
def sortByTsDesc (l : List IdbStored) : List IdbStored := l.foldr insertByTsDesc []

/-- Embedding of `getAccountData`: the IndexedDB store is read first and the
most recent record's rows returned with `accountId` re-stamped; only when
IndexedDB has no record for the account does the localStorage snapshot serve
as fallback; otherwise the empty list. -/
def getAccountData (accountId : String) (cat : CsvType) (s : StorageState) : List Row :=
  if accountId = "" then []
  else
    let indexedDBData := (idbDatasetStore cat s).filter (fun r => r.payload.accountId = accountId)
    match sortByTsDesc indexedDBData with
    | top :: _ => top.payload.data.map (fun item => objSet item "accountId" (.str accountId))
    | [] =>
        match lsGetDataset s cat accountId with
        | some localData =>
            localData.data.map (fun item => objSet item "accountId" (.str accountId))
        | none => []

-- ----------------------------------------------------------------
-- Helper lemmas on the object model
-- ----------------------------------------------------------------

theorem find?_objSet_self (m : Row) (k : String) (v : JSValue) :
    (objSet m k v).find? (fun p => p.1 = k) = some (k, v) := by
  induction m with
  | nil => simp [objSet, List.find?]
  | cons p rest ih =>
      by_cases h : p.1 = k
      · simp [objSet, h, List.find?]
      · simp [objSet, h, List.find?, ih]

theorem find?_objSet_ne (m : Row) {k k' : String} (h : k' ≠ k) (v : JSValue) :
    (objSet m k' v).find? (fun p => p.1 = k) = m.find? (fun p => p.1 = k) := by
  induction m with
  | nil =>
      have hk : ¬ (k' = k) := h
      simp [objSet, hk]
  | cons p rest ih =>
      by_cases hp : p.1 = k'
      · have hk : ¬ (k' = k) := h
        have hpk : ¬ (p.1 = k) := by rw [hp]; exact hk
        simp [objSet, hp, hk, hpk]
      · simp only [objSet, if_neg hp]
        by_cases hk : p.1 = k
        · simp [hk]
        · simp [hk, ih]

theorem objGet_objSet_self (m : Row) (k : String) (v : JSValue) :
    objGet (objSet m k v) k = v := by
  unfold objGet
  rw [find?_objSet_self]

theorem objGet_objSet_ne (m : Row) {k k' : String} (h : k' ≠ k) (v : JSValue) :
    objGet (objSet m k' v) k = objGet m k := by
  unfold objGet
  rw [find?_objSet_ne m h]

theorem objSet_no_change (m : Row) (k : String) (v : JSValue)
    (h : m.find? (fun p => p.1 = k) = some (k, v)) : objSet m k v = m := by
  induction m with
  | nil => simp [List.find?] at h
  | cons p rest ih =>
      by_cases hp : p.1 = k
      · rw [List.find?_cons_of_pos _ (by simpa using hp)] at h
        simp only [Option.some.injEq] at h
        simp only [objSet, if_pos hp, ← h]
      · rw [List.find?_cons_of_neg _ (by simpa using hp)] at h
        simp [objSet, hp, ih h]

-- ----------------------------------------------------------------
-- Helper lemmas on JS numbers
-- ----------------------------------------------------------------

theorem jsParseFloatVal_or_zero (q : ℚ) :
    jsParseFloatVal (jsOr (.num (.fin q)) (.num (.fin 0))) = .fin q := by
  by_cases h : q = 0
  · subst h
    simp [jsOr, jsTruthy, jsParseFloatVal]
  · simp [jsOr, jsTruthy, h, jsParseFloatVal]

theorem safe_parseFloat_or_zero (v : JSValue)
    (h : jsTruthy v = false ∨ ∃ q : ℚ, jsParseFloatVal v = .fin q) :
    ∃ q : ℚ, jsParseFloatVal (jsOr v (.num (.fin 0))) = .fin q := by
  by_cases ht : jsTruthy v
  · rcases h with h | h
    · rw [ht] at h
      cases h
    · simpa [jsOr, ht] using h
  · simp only [Bool.not_eq_true] at ht
    refine ⟨0, ?_⟩
    simp [jsOr, ht, jsParseFloatVal]

theorem fin_add_fin (a b : ℚ) : (JNum.fin a).add (.fin b) = .fin (a + b) := rfl

theorem engagement_value_not_nan (i : ℚ) (v : JSValue) (h : jsGtNum v 0 = true) :
    (toFixed2ThenParse (((JNum.fin i).div (jsToNumber v)).mul (.fin 100))).isNaN = false := by
  unfold jsGtNum at h
  cases hv : jsToNumber v with
  | fin p =>
      rw [hv] at h
      have hp : 0 < p := by simpa using h
      simp [JNum.div, ne_of_gt hp, hp.ne.symm, JNum.mul, toFixed2ThenParse, JNum.isNaN]
  | inf b =>
      simp [JNum.div, JNum.mul, toFixed2ThenParse, JNum.isNaN]
  | nan =>
      rw [hv] at h
      cases h

-- ----------------------------------------------------------------
-- C2: total safety of the numeric coercion
-- ----------------------------------------------------------------

/-- C2 counterexample: the claim says `parseNumericValue` always returns a
finite number, but the infinite number input `Infinity` is a non-`NaN` number
and is returned unchanged, so the result is not finite. -/
theorem c2_counterexample :
    parseNumericValue (.num (.inf true)) = .inf true ∧
    (parseNumericValue (.num (.inf true))).isFinite = false := by
  constructor
  · rfl
  · rfl

/-- C2 (amended): `parseNumericValue` never returns `NaN` (and, being a total
function, never throws); `null`, `undefined` and the empty string give 0, a
finite number is returned unchanged, and a string whose cleaned form does not
`parseFloat` gives 0 — but infinite inputs (or strings parsing to `Infinity`)
are returned as infinities, so the result is not always finite. -/
theorem c2_amended :
    (∀ v : JSValue, (parseNumericValue v).isNaN = false) ∧
    parseNumericValue .nullV = .fin 0 ∧
    parseNumericValue .undefV = .fin 0 ∧
    parseNumericValue (.str "") = .fin 0 ∧
    (∀ q : ℚ, parseNumericValue (.num (.fin q)) = .fin q) ∧
    (∀ s : String, jsParseFloat (cleanNumericString s) = .nan →
        parseNumericValue (.str s) = .fin 0) := by
  refine ⟨?_, rfl, rfl, rfl, ?_, ?_⟩
  · intro v
    cases v with
    | str s =>
        by_cases hs : s = ""
        · subst hs
          rfl
        · cases hp : jsParseFloat (cleanNumericString s) <;>
            simp [parseNumericValue, hs, hp, JNum.isNaN]
    | num n => cases n <;> rfl
    | bool b => rfl
    | nullV => rfl
    | undefV => rfl
    | obj => rfl
  · intro q
    simp [parseNumericValue]
  · intro s h
    by_cases hs : s = ""
    · subst hs
      rfl
    · simp [parseNumericValue, hs, h]

/-- C2 witness: the amended theorem applied at concrete inputs. -/
theorem c2_witness :
    (parseNumericValue (.str "1 234,5")).isNaN = false ∧
    jsParseFloat (cleanNumericString "abc") = .nan ∧
    parseNumericValue (.str "abc") = .fin 0 :=
  ⟨c2_amended.1 (.str "1 234,5"), by decide,
   c2_amended.2.2.2.2.2 "abc" (by decide)⟩

-- ----------------------------------------------------------------
-- C3: NaN safety of the per-row derivation
-- ----------------------------------------------------------------

/-- The concrete mapped row refuting C3: `likes` is the truthy non-numeric
string `"abc"`, which `parseFloat` turns into `NaN`. -/
def c3Row : Row := [("likes", .str "abc"), ("reach", .num (.fin 200))]

/-- C3 counterexample: the additive inputs of `calculateOverviewFields` do
not pass through the §4.2 coercion (the code uses bare `parseFloat(x || 0)`),
so a malformed text field produces `NaN` for `interactions` and, with a
positive reach, for `engagement_rate`. -/
theorem c3_counterexample :
    objGet (calculateOverviewFields c3Row) "interactions" = .num .nan ∧
    objGet (calculateOverviewFields c3Row) "engagement_rate" = .num .nan := by
  constructor
  · decide
  · decide

/-- Hypothesis under which the `parseFloat(x || 0)` coercion of the derivation
is NaN-free: the field is falsy (missing, `null`, empty, zero) or parses to a
finite number. -/
def SafeAdditive (v : JSValue) : Prop :=
  jsTruthy v = false ∨ ∃ q : ℚ, jsParseFloatVal v = .fin q

/-- C3 (amended): the derivation passes its additive inputs through
`parseFloat` with a falsy-to-0 fallback rather than through the §4.2
coercion; `interactions` and `engagement_rate` are NaN-free whenever every
additive source field (likes, comments, shares, favorites) is falsy or
parses to a finite number, which covers missing and `null` fields but not
truthy malformed text. -/
theorem c3_amended (row : Row)
    (hl : SafeAdditive (objGet row "likes")) (hc : SafeAdditive (objGet row "comments"))
    (hs : SafeAdditive (objGet row "shares")) (hf : SafeAdditive (objGet row "favorites")) :
    (∃ q : ℚ, objGet (calculateOverviewFields row) "interactions" = .num (.fin q)) ∧
    (∃ n : JNum, objGet (calculateOverviewFields row) "engagement_rate" = .num n ∧
        n.isNaN = false) ∧
    (∃ q : ℚ, objGet (calculateVideoFields row) "interactions" = .num (.fin q)) ∧
    (∃ n : JNum, objGet (calculateVideoFields row) "engagement_rate" = .num n ∧
        n.isNaN = false) := by
  obtain ⟨ql, el⟩ := safe_parseFloat_or_zero _ hl
  obtain ⟨qc, ec⟩ := safe_parseFloat_or_zero _ hc
  obtain ⟨qs, es⟩ := safe_parseFloat_or_zero _ hs
  obtain ⟨qf, ef⟩ := safe_parseFloat_or_zero _ hf
  have hne : ("engagement_rate" : String) ≠ "interactions" := by decide
  refine ⟨?_, ?_, ?_, ?_⟩
  · refine ⟨ql + qc + qs, ?_⟩
    simp only [calculateOverviewFields, el, ec, es, fin_add_fin]
    split_ifs <;>
      rw [objGet_objSet_ne _ hne, objGet_objSet_self]
  · simp only [calculateOverviewFields, el, ec, es, fin_add_fin]
    split_ifs with hguard
    · exact ⟨_, objGet_objSet_self _ _ _, engagement_value_not_nan _ _ hguard.2⟩
    · exact ⟨.fin 0, objGet_objSet_self _ _ _, rfl⟩
  · refine ⟨ql + qc + qs + qf, ?_⟩
    simp only [calculateVideoFields, el, ec, es, ef, fin_add_fin]
    split_ifs <;>
      rw [objGet_objSet_ne _ hne, objGet_objSet_self]
  · simp only [calculateVideoFields, el, ec, es, ef, fin_add_fin]
    split_ifs with hguard
    · exact ⟨_, objGet_objSet_self _ _ _, engagement_value_not_nan _ _ hguard.2⟩
    · exact ⟨.fin 0, objGet_objSet_self _ _ _, rfl⟩

/-- C3 witness: a row with a missing `favorites` field and finite numeric
additive fields satisfies the amended guarantee. -/
theorem c3_witness :
    (∃ q : ℚ, objGet (calculateOverviewFields
        [("likes", .num (.fin 1)), ("comments", .num (.fin 2)),
         ("shares", .num (.fin 3)), ("reach", .num (.fin 10))]) "interactions" =
        .num (.fin q)) ∧
    (∃ n : JNum, objGet (calculateOverviewFields
        [("likes", .num (.fin 1)), ("comments", .num (.fin 2)),
         ("shares", .num (.fin 3)), ("reach", .num (.fin 10))]) "engagement_rate" =
        .num n ∧ n.isNaN = false) ∧
    (∃ q : ℚ, objGet (calculateVideoFields
        [("likes", .num (.fin 1)), ("comments", .num (.fin 2)),
         ("shares", .num (.fin 3)), ("reach", .num (.fin 10))]) "interactions" =
        .num (.fin q)) ∧
    (∃ n : JNum, objGet (calculateVideoFields
        [("likes", .num (.fin 1)), ("comments", .num (.fin 2)),
         ("shares", .num (.fin 3)), ("reach", .num (.fin 10))]) "engagement_rate" =
        .num n ∧ n.isNaN = false) :=
  c3_amended _ (Or.inr ⟨1, by decide⟩) (Or.inr ⟨2, by decide⟩)
    (Or.inr ⟨3, by decide⟩) (Or.inl (by decide))

-- ----------------------------------------------------------------
-- C4: the overview engagement-rate formula and its boundary
-- ----------------------------------------------------------------

/-- C4: for a daily-summary row whose likes, comments, shares and reach are
finite numbers, `calculateOverviewFields` sets
`interactions = likes + comments + shares` and
`engagement_rate = round2(interactions / reach * 100)` when `reach > 0`,
and exactly 0 when `reach = 0` (no division by zero). -/
theorem c4_engagement (row : Row) (l c sh r : ℚ)
    (hl : objGet row "likes" = .num (.fin l))
    (hc : objGet row "comments" = .num (.fin c))
    (hs : objGet row "shares" = .num (.fin sh))
    (hr : objGet row "reach" = .num (.fin r)) :
    objGet (calculateOverviewFields row) "interactions" = .num (.fin (l + c + sh)) ∧
    (0 < r → objGet (calculateOverviewFields row) "engagement_rate" =
        .num (.fin (round2 ((l + c + sh) / r * 100)))) ∧
    (r = 0 → objGet (calculateOverviewFields row) "engagement_rate" = .num (.fin 0)) := by
  have hne : ("engagement_rate" : String) ≠ "interactions" := by decide
  simp only [calculateOverviewFields, hl, hc, hs, hr, jsParseFloatVal_or_zero, fin_add_fin]
  refine ⟨?_, ?_, ?_⟩
  · split_ifs <;> rw [objGet_objSet_ne _ hne, objGet_objSet_self]
  · intro hrpos
    rw [if_pos]
    · rw [objGet_objSet_self]
      simp [jsToNumber, JNum.div, hrpos.ne.symm, JNum.mul, toFixed2ThenParse,
        div_mul_eq_mul_div]
    · constructor
      · simp [jsTruthy, hrpos.ne.symm]
      · simp [jsGtNum, jsToNumber, hrpos]
  · intro hr0
    rw [if_neg]
    · rw [objGet_objSet_self]
    · intro hcontra
      rw [hr0] at hcontra
      simp [jsTruthy] at hcontra

/-- The spec's concrete daily-summary boundary row:
reach 200, likes 10, comments 5, shares 5. -/
def c4Row : Row :=
  [("likes", .num (.fin 10)), ("comments", .num (.fin 5)),
   ("shares", .num (.fin 5)), ("reach", .num (.fin 200))]

/-- A zero-reach row for the division-by-zero boundary. -/
def c4RowZero : Row :=
  [("likes", .num (.fin 10)), ("comments", .num (.fin 5)),
   ("shares", .num (.fin 5)), ("reach", .num (.fin 0))]

/-- C4 witness: the formula theorem applied at the spec's concrete rows gives
`engagement_rate = 10.00` for reach 200 and exactly 0 for reach 0. -/
theorem c4_witness :
    objGet (calculateOverviewFields c4Row) "interactions" = .num (.fin 20) ∧
    objGet (calculateOverviewFields c4Row) "engagement_rate" = .num (.fin 10) ∧
    objGet (calculateOverviewFields c4RowZero) "engagement_rate" = .num (.fin 0) := by
  have h1 := c4_engagement c4Row 10 5 5 200 (by decide) (by decide) (by decide) (by decide)
  have h2 := c4_engagement c4RowZero 10 5 5 0 (by decide) (by decide) (by decide) (by decide)
  refine ⟨?_, ?_, h2.2.2 rfl⟩
  · have := h1.1
    norm_num at this ⊢
    exact this
  · have := h1.2.1 (by norm_num)
    rw [this]
    norm_num [round2]

-- ----------------------------------------------------------------
-- C9: mapping-collision rejection in the editor
-- ----------------------------------------------------------------

/-- C9 counterexample: when the edited input's `originalName` coincides with
the colliding `newValue`, the collision check (`key !== originalName`) skips
the entry, so the handler mutates the table instead of rejecting: here
`"Datum"` maps to `"date"`, yet assigning `"Datum"` to `profile_views` with
`originalName = "Datum"` silently rewrites the entry and reports no error. -/
theorem c9_counterexample :
    handleValueChange (some "Datum") "profile_views" "Datum" [("Datum", "date")] =
      ([("Datum", "profile_views")], none) := by
  decide

/-- C9 (amended): the handler rejects — reporting a validation error and
leaving the table unchanged — whenever the trimmed new external name is
empty, or some entry whose key differs from `originalName` already maps the
new external name to a different internal field.  (When `originalName`
itself equals the colliding name the check is skipped, which the
counterexample exhibits; the editor UI only passes an `originalName`
currently owned by the edited field.) -/
theorem c9_amended (originalName : Option String) (internalName newValue : String)
    (mappings : Mappings)
    (h : jsTrim newValue = "" ∨
         ∃ p ∈ mappings, some p.1 ≠ originalName ∧ p.1 = newValue ∧ p.2 ≠ internalName) :
    (handleValueChange originalName internalName newValue mappings).1 = mappings ∧
    ((handleValueChange originalName internalName newValue mappings).2).isSome = true := by
  unfold handleValueChange
  by_cases ht : jsTrim newValue = ""
  · simp [ht]
  · rcases h with h | h
    · exact absurd h ht
    · rw [if_neg ht]
      have hfind : (mappings.find? (fun p =>
          some p.1 ≠ originalName ∧ p.1 = newValue ∧ p.2 ≠ internalName)).isSome = true := by
        rw [List.find?_isSome]
        obtain ⟨p, hp, hprop⟩ := h
        exact ⟨p, hp, by simpa using hprop⟩
      cases hf : mappings.find? (fun p =>
          some p.1 ≠ originalName ∧ p.1 = newValue ∧ p.2 ≠ internalName) with
      | none => rw [hf] at hfind; cases hfind
      | some p => simp [hf]

/-- C9 witness: the claim's scenario with the editor's actual `originalName`
(the current external name of `profile_views`): assigning `"Datum"` while
`"Datum"` already maps to `"date"` is rejected and the table is unchanged. -/
theorem c9_witness :
    (handleValueChange (some "Profilvisningar") "profile_views" "Datum"
        [("Datum", "date")]).1 = [("Datum", "date")] ∧
    ((handleValueChange (some "Profilvisningar") "profile_views" "Datum"
        [("Datum", "date")]).2).isSome = true :=
  c9_amended (some "Profilvisningar") "profile_views" "Datum" [("Datum", "date")]
    (Or.inr ⟨("Datum", "date"), by decide, by decide, by decide, by decide⟩)

-- ----------------------------------------------------------------
-- C8: the 500-row batch loop is equivalent to single-pass processing
-- ----------------------------------------------------------------

theorem processBatchRows_eq_map (cat : CsvType) (m : Mappings) (rows : List Row) :
    processBatchRows cat m rows =
      rows.map (fun r =>
        if cat = .overview then calculateOverviewFields (mapRow r m)
        else calculateVideoFields (mapRow r m)) := by
  unfold processBatchRows
  by_cases h : cat = .overview <;> simp [h, Function.comp_def]

theorem batchLoop_eq_processBatchRows (cat : CsvType) (m : Mappings) (rows : List Row) :
    batchLoop cat m rows = processBatchRows cat m rows := by
  suffices h : ∀ (n : ℕ) (rows : List Row), rows.length ≤ n →
      batchLoop cat m rows = processBatchRows cat m rows from
    h rows.length rows le_rfl
  intro n
  induction n with
  | zero =>
      intro rows hlen
      have : rows = [] := List.length_eq_zero.mp (Nat.le_zero.mp hlen)
      subst this
      rw [batchLoop]
      simp [processBatchRows]
  | succ n ih =>
      intro rows hlen
      rw [batchLoop]
      by_cases he : rows.isEmpty
      · have : rows = [] := List.isEmpty_iff.mp he
        subst this
        simp [processBatchRows]
      · rw [if_neg he]
        have hne : rows ≠ [] := fun hcontra => he (by simp [hcontra])
        have hpos : 0 < rows.length := List.length_pos.mpr hne
        rw [ih (rows.drop 500) (by simp only [List.length_drop]; omega)]
        rw [processBatchRows_eq_map, processBatchRows_eq_map, processBatchRows_eq_map,
          ← List.map_append, List.take_append_drop]

/-- C8: for every row set, column mapping and category, processing the rows
in consecutive batches of 500 through `mapRow` and the per-row derivation and
concatenating the batch results in order (`batchLoop`) equals mapping and
deriving all rows in a single pass (`processBatchRows` applied to the whole
list). -/
theorem c8_batching (cat : CsvType) (m : Mappings) (rows : List Row) :
    batchLoop cat m rows = processBatchRows cat m rows :=
  batchLoop_eq_processBatchRows cat m rows

-- ----------------------------------------------------------------
-- C5: the type detector implements the claimed selection algorithm
-- ----------------------------------------------------------------

/-- Claim-side fallback cascade, following the spec text for a best count
below the threshold: daily-summary on an exact date-keyword header, else
per-item on a title/video-like header, else the foreign-platform hints
(facebook before instagram), else unknown. -/
def claimCascade (normHeaders : List String) : CsvType :=
  if normHeaders.any (fun h => h = "datum" ∨ h = "date") then .overview
  else if normHeaders.any (fun h =>
      h = "videotitel" ∨ h = "video title" ∨ h = "title" ∨ strIncludes h "video") then .video
  else if normHeaders.any (fun h => strIncludes h "facebook" ∨ strIncludes h "page") then .facebook
  else if normHeaders.any (fun h => strIncludes h "instagram" ∨ strIncludes h "insta") then .instagram
  else .unknown

/-- Claim-side selection, following the spec text: with the per-category
match counts listed in enumeration order, pick the category with the
strictly highest count, the first category in enumeration order winning
ties; if the best count is below 2, fall back to the cascade. -/
def claimSelect : List (CsvType × ℕ) → List String → CsvType
  | [(t1, c1), (t2, c2), (t3, c3), (t4, c4)], normHeaders =>
      let maxCount := max c1 (max c2 (max c3 c4))
      if maxCount < 2 then claimCascade normHeaders
      else if c1 = maxCount then t1
      else if c2 = maxCount then t2
      else if c3 = maxCount then t3
      else t4
  | _, _ => .unknown

/-- Claim-side formalization of the §4.3 detection algorithm as C5 states
it: count, for each category in the fixed enumeration order, how many of
that category's indicator keywords occur as an exact or substring match
among the normalized headers, then select per `claimSelect`. -/
def detectTypeClaim (headers : List String) : CsvType :=
  let normHeaders := headers.map normalizeHeader
  claimSelect
    (CSV_TYPE_INDICATORS.map (fun p => (p.1, countIndicatorMatches normHeaders p.2)))
    normHeaders

theorem detectHeuristics_eq_claimCascade (normHeaders : List String) :
    detectHeuristics normHeaders = claimCascade normHeaders := rfl

theorem fold_vs_claimSelect (nh : List String) (c1 c2 c3 c4 : ℕ) :
    (if (bestMatchFold
          [(.overview, c1), (.video, c2), (.facebook, c3), (.instagram, c4)]).2 < 2
     then detectHeuristics nh
     else (bestMatchFold
          [(.overview, c1), (.video, c2), (.facebook, c3), (.instagram, c4)]).1) =
      claimSelect [(.overview, c1), (.video, c2), (.facebook, c3), (.instagram, c4)] nh := by
  have hiff : ((bestMatchFold
      [(CsvType.overview, c1), (.video, c2), (.facebook, c3), (.instagram, c4)]).2 < 2) ↔
      (max c1 (max c2 (max c3 c4)) < 2) := by
    simp only [bestMatchFold, List.foldl]
    split_ifs <;> omega
  simp only [claimSelect]
  by_cases h : max c1 (max c2 (max c3 c4)) < 2
  · rw [if_pos (hiff.mpr h), if_pos h]
    exact detectHeuristics_eq_claimCascade nh
  · rw [if_neg (fun hc => h (hiff.mp hc)), if_neg h]
    simp only [bestMatchFold, List.foldl]
    split_ifs <;> first | rfl | (exfalso; omega)

/-- C5: `detectCSVType` computes exactly the claimed algorithm — per-category
indicator-match counts in the fixed enumeration order, the strictly highest
count winning with first-in-order tie-break, and below a best count of 2 the
date-keyword / title-or-video / facebook / instagram / unknown fallback
cascade; being a function of the headers alone, it is deterministic. -/
theorem c5_detect_eq_claim (headers : List String) :
    detectCSVType headers = detectTypeClaim headers := by
  unfold detectCSVType detectTypeClaim
  simp only [CSV_TYPE_INDICATORS, List.map_cons, List.map_nil]
  exact fold_vs_claimSelect (headers.map normalizeHeader) _ _ _ _

-- ----------------------------------------------------------------
-- C6: wrong-platform hard stop
-- ----------------------------------------------------------------

/-- On a non-empty parse with a supported resolved category the pipeline
returns the explicit success record (the pipeline body with its lets
expanded). -/
theorem processParsed_ok (parsed : ParsedCsv) (m : Mappings) (forced : Option CsvType)
    (hne' : parsed.data.isEmpty = false)
    (hwp : checkWrongPlatform (forced.getD (detectCSVType parsed.fields)) = none) :
    processParsed parsed m forced = .ok
      { data := annotatePublicationCount (forced.getD (detectCSVType parsed.fields))
          (batchLoop (forced.getD (detectCSVType parsed.fields)) m
            (if 5000 < parsed.data.length then parsed.data.take 5000 else parsed.data))
        csvType := forced.getD (detectCSVType parsed.fields)
        meta := { rowCount := (annotatePublicationCount (forced.getD (detectCSVType parsed.fields))
              (batchLoop (forced.getD (detectCSVType parsed.fields)) m
                (if 5000 < parsed.data.length then parsed.data.take 5000
                 else parsed.data))).length
                  totalRows := parsed.data.length
                  isLimited := decide (5000 < parsed.data.length)
                  fields := parsed.fields
                  missingColumns := (validateRequiredColumns parsed.fields m
                      (forced.getD (detectCSVType parsed.fields))).missingColumns } } := by
  simp only [processParsed]
  rw [if_neg (by rw [hne']; simp)]
  rw [hwp]

/-- C6: for a non-empty parse whose resolved category (forced or detected)
is facebook, instagram or unknown, `processTikTokData` rejects with the
wrong-platform diagnostic produced by `checkWrongPlatform` — an error value
carrying a non-empty platform label and a non-empty human-readable message,
and no rows; a resolved category of overview or video is never rejected on
this ground and the pipeline returns a result. -/
theorem c6_wrong_platform (parsed : ParsedCsv) (m : Mappings) (forced : Option CsvType)
    (hne : parsed.data ≠ []) :
    (∀ wp, checkWrongPlatform (forced.getD (detectCSVType parsed.fields)) = some wp →
        processParsed parsed m forced = .error (.wrongPlatform wp)) ∧
    ((forced.getD (detectCSVType parsed.fields) = .facebook ∨
      forced.getD (detectCSVType parsed.fields) = .instagram ∨
      forced.getD (detectCSVType parsed.fields) = .unknown) →
        ∃ wp, checkWrongPlatform (forced.getD (detectCSVType parsed.fields)) = some wp ∧
          wp.platform ≠ "" ∧ wp.message ≠ "") ∧
    ((forced.getD (detectCSVType parsed.fields) = .overview ∨
      forced.getD (detectCSVType parsed.fields) = .video) →
        checkWrongPlatform (forced.getD (detectCSVType parsed.fields)) = none ∧
        ∃ out, processParsed parsed m forced = .ok out) := by
  have hne' : parsed.data.isEmpty = false := by
    simpa [List.isEmpty_iff] using hne
  refine ⟨?_, ?_, ?_⟩
  · intro wp hwp
    simp [processParsed, hne', hwp]
  · rintro (h | h | h) <;> rw [h] <;>
      exact ⟨_, rfl, by decide, by decide⟩
  · rintro (h | h) <;>
      exact ⟨by rw [h]; rfl, _, processParsed_ok parsed m forced hne' (by rw [h]; rfl)⟩

/-- The concrete Facebook-only header set for the C6 witness. -/
def c6Parsed : ParsedCsv :=
  { fields := ["Page name", "Sidnamn"], data := [[("Page name", .str "My Page")]] }

/-- C6 witness: the theorem applied to a file whose headers match only
Facebook indicators. -/
theorem c6_witness :
    processParsed c6Parsed [] none =
      .error (.wrongPlatform
        { platform := "Facebook"
          message := "Detta verkar vara Facebook-statistik, inte TikTok-data. Appen stödjer endast TikTok-statistikfiler." }) :=
  (c6_wrong_platform c6Parsed [] none (by decide)).1 _ (by decide)

-- ----------------------------------------------------------------
-- C7: the 5000-row performance ceiling and its metadata
-- ----------------------------------------------------------------

theorem processedRows_length (cat : CsvType) (m : Mappings) (rows : List Row) :
    (annotatePublicationCount cat (batchLoop cat m rows)).length = rows.length := by
  rw [batchLoop_eq_processBatchRows, processBatchRows_eq_map]
  unfold annotatePublicationCount
  split_ifs <;> simp

/-- C7: for a resolved supported category, an input of more than 5000 parsed
rows is truncated to exactly its first 5000 rows (`metadata.isLimited = true`,
`metadata.totalRows` the original count, 5000 processed rows), and an input
of between 1 and 5000 rows is processed whole with `isLimited = false`. -/
theorem c7_truncation (parsed : ParsedCsv) (m : Mappings) (forced : Option CsvType)
    (hcat : forced.getD (detectCSVType parsed.fields) = .overview ∨
            forced.getD (detectCSVType parsed.fields) = .video) :
    (5000 < parsed.data.length →
        ∃ out, processParsed parsed m forced = .ok out ∧
          out.data.length = 5000 ∧
          out.meta.isLimited = true ∧
          out.meta.totalRows = parsed.data.length ∧
          out.data = annotatePublicationCount (forced.getD (detectCSVType parsed.fields))
            (batchLoop (forced.getD (detectCSVType parsed.fields)) m
              (parsed.data.take 5000))) ∧
    (1 ≤ parsed.data.length → parsed.data.length ≤ 5000 →
        ∃ out, processParsed parsed m forced = .ok out ∧
          out.data.length = parsed.data.length ∧
          out.meta.isLimited = false ∧
          out.meta.totalRows = parsed.data.length) := by
  have hwp : checkWrongPlatform (forced.getD (detectCSVType parsed.fields)) = none := by
    rcases hcat with h | h <;> rw [h] <;> rfl
  constructor
  · intro hgt
    have hne' : parsed.data.isEmpty = false := by
      cases hd : parsed.data with
      | nil => rw [hd] at hgt; simp at hgt
      | cons a l => simp [hd]
    refine ⟨_, processParsed_ok parsed m forced hne' hwp, ?_, ?_, ?_, ?_⟩
    · show (annotatePublicationCount _ (batchLoop _ m
          (if 5000 < parsed.data.length then parsed.data.take 5000
           else parsed.data))).length = 5000
      rw [if_pos hgt, processedRows_length, List.length_take]
      omega
    · show decide (5000 < parsed.data.length) = true
      simpa using hgt
    · rfl
    · show annotatePublicationCount _ (batchLoop _ m
          (if 5000 < parsed.data.length then parsed.data.take 5000 else parsed.data)) = _
      rw [if_pos hgt]
  · intro h1 h5000
    have hne' : parsed.data.isEmpty = false := by
      cases hd : parsed.data with
      | nil => rw [hd] at h1; simp at h1
      | cons a l => simp [hd]
    have hng : ¬ (5000 < parsed.data.length) := by omega
    refine ⟨_, processParsed_ok parsed m forced hne' hwp, ?_, ?_, ?_⟩
    · show (annotatePublicationCount _ (batchLoop _ m
          (if 5000 < parsed.data.length then parsed.data.take 5000
           else parsed.data))).length = parsed.data.length
      rw [if_neg hng, processedRows_length]
    · show decide (5000 < parsed.data.length) = false
      simpa using hng
    · rfl

/-- The 6000-row synthetic input for the C7 witness. -/
def c7Parsed : ParsedCsv :=
  { fields := ["Datum"], data := List.replicate 6000 ([] : Row) }

/-- C7 witness: 6000 synthetic rows with a forced overview category give
exactly 5000 processed rows, `isLimited = true` and `totalRows = 6000`. -/
theorem c7_witness :
    ∃ out, processParsed c7Parsed [] (some .overview) = .ok out ∧
      out.data.length = 5000 ∧ out.meta.isLimited = true ∧ out.meta.totalRows = 6000 := by
  have hlen : c7Parsed.data.length = 6000 := by
    rw [show c7Parsed.data = List.replicate 6000 ([] : Row) from rfl, List.length_replicate]
  obtain ⟨out, h1, h2, h3, h4, _⟩ :=
    (c7_truncation c7Parsed [] (some .overview) (Or.inl rfl)).1 (by rw [hlen]; omega)
  exact ⟨out, h1, h2, h3, by rw [h4, hlen]⟩

-- ----------------------------------------------------------------
-- C10: the account list prefers the fast tier
-- ----------------------------------------------------------------

/-- C10: `getAccounts` inverts the dataset read path's tier preference:
whenever the localStorage account list is non-empty it is returned as-is
with no state change; only when it is missing or empty is the IndexedDB
accounts store consulted, and its (non-empty) result is copied back into
localStorage. -/
theorem c10_accounts_fast_tier (s : StorageState) :
    ((s.lsAccounts.getD []) ≠ [] →
        getAccountsStateful s = (s.lsAccounts.getD [], s)) ∧
    ((s.lsAccounts.getD []) = [] →
        (getAccountsStateful s).1 = s.idbAccounts ∧
        (getAccountsStateful s).2 =
          (if s.idbAccounts.isEmpty then s
           else { s with lsAccounts := some s.idbAccounts })) := by
  constructor
  · intro h
    have h' : (s.lsAccounts.getD []).isEmpty = false := by
      simpa [List.isEmpty_iff] using h
    simp [getAccountsStateful, h']
  · intro h
    have h' : (s.lsAccounts.getD []).isEmpty = true := by simp [h]
    by_cases hidb : s.idbAccounts.isEmpty
    · simp [getAccountsStateful, h', hidb]
    · simp [getAccountsStateful, h', hidb]

/-- A concrete account for the storage witnesses. -/
def c10Account : Account :=
  { id := "a1", name := "Main", hasOverviewData := false, hasVideoData := false
    lastOverviewUpdate := none, lastVideoUpdate := none }

/-- A state whose fast tier already holds an account list. -/
def c10StateFast : StorageState :=
  { lsAccounts := some [c10Account], lsOverviewData := [], lsVideoData := []
    idbAccounts := [], idbOverviewData := [], idbVideoData := []
    nextOverviewId := 0, nextVideoId := 0 }

/-- A state whose fast tier is empty while the durable tier holds the list. -/
def c10StateDurable : StorageState :=
  { lsAccounts := none, lsOverviewData := [], lsVideoData := []
    idbAccounts := [c10Account], idbOverviewData := [], idbVideoData := []
    nextOverviewId := 0, nextVideoId := 0 }

/-- C10 witness: the theorem applied to both concrete states. -/
theorem c10_witness :
    getAccountsStateful c10StateFast = ([c10Account], c10StateFast) ∧
    (getAccountsStateful c10StateDurable).1 = [c10Account] := by
  constructor
  · exact (c10_accounts_fast_tier c10StateFast).1 (by decide)
  · exact ((c10_accounts_fast_tier c10StateDurable).2 (by decide)).1

-- ----------------------------------------------------------------
-- C1: replace-not-merge for saveAccountData / getAccountData
-- ----------------------------------------------------------------

/-- The dataset-relevant components of the storage state (everything
`getAccountData` reads). -/
def SameDatasets (t u : StorageState) : Prop :=
  t.idbOverviewData = u.idbOverviewData ∧ t.idbVideoData = u.idbVideoData ∧
  t.lsOverviewData = u.lsOverviewData ∧ t.lsVideoData = u.lsVideoData

theorem sameDatasets_refl (s : StorageState) : SameDatasets s s :=
  ⟨rfl, rfl, rfl, rfl⟩

theorem sameDatasets_gas (s : StorageState) :
    SameDatasets (getAccountsStateful s).2 s := by
  simp only [getAccountsStateful]
  split_ifs <;> exact ⟨rfl, rfl, rfl, rfl⟩

theorem sameDatasets_saveAccount (a : Account) (now : ℕ) (s : StorageState) :
    SameDatasets (saveAccount a now s).2 s := by
  have h := sameDatasets_gas s
  simp only [saveAccount]
  split_ifs <;> exact h

theorem sameDatasets_update {acc : String} {cat : CsvType} {now : ℕ} {s : StorageState}
    {r : Account × StorageState}
    (h : updateAccountDataStatus acc cat now s = some r) : SameDatasets r.2 s := by
  unfold updateAccountDataStatus at h
  cases hg : getAccount acc s with
  | none => rw [hg] at h; cases h
  | some a =>
      rw [hg] at h
      injection h with h
      rw [← h]
      exact sameDatasets_saveAccount _ _ _

/-- The store selector of the dataset IndexedDB put with auto-increment. -/
def nextIdOf (cat : CsvType) (s : StorageState) : ℕ :=
  if cat = .overview then s.nextOverviewId else s.nextVideoId

theorem idbDatasetStore_congr {t u : StorageState} (cat : CsvType)
    (h : SameDatasets t u) : idbDatasetStore cat t = idbDatasetStore cat u := by
  obtain ⟨h1, h2, _, _⟩ := h
  unfold idbDatasetStore
  rw [h1, h2]

theorem getAccountData_congr {t u : StorageState} (acc : String) (cat : CsvType)
    (h : SameDatasets t u) : getAccountData acc cat t = getAccountData acc cat u := by
  obtain ⟨h1, h2, h3, h4⟩ := h
  unfold getAccountData idbDatasetStore lsGetDataset
  rw [h1, h2, h3, h4]

theorem idbDatasetStore_insert (s : StorageState) (cat : CsvType) (dwm : DataWithMeta) :
    idbDatasetStore cat (idbInsertDataset s cat dwm) =
      idbDatasetStore cat s ++ [{ id := nextIdOf cat s, payload := dwm }] := by
  by_cases hc : cat = .overview <;> simp [idbInsertDataset, idbDatasetStore, nextIdOf, hc]

theorem idbDatasetStore_delete (s : StorageState) (cat : CsvType) (acc : String) :
    idbDatasetStore cat (idbDeleteDatasets s cat acc) =
      (idbDatasetStore cat s).filter (fun r => r.payload.accountId ≠ acc) := by
  by_cases hc : cat = .overview <;> simp [idbDeleteDatasets, idbDatasetStore, hc]

theorem nextIdOf_delete (s : StorageState) (cat : CsvType) (acc : String) :
    nextIdOf cat (idbDeleteDatasets s cat acc) = nextIdOf cat s := by
  by_cases hc : cat = .overview <;> simp [idbDeleteDatasets, nextIdOf, hc]

theorem filter_ne_then_eq (l : List IdbStored) (acc : String) :
    ((l.filter (fun r => r.payload.accountId ≠ acc)).filter
        (fun r => r.payload.accountId = acc)) = [] := by
  induction l with
  | nil => rfl
  | cons r rest ih =>
      by_cases h : r.payload.accountId = acc
      · simp [List.filter, h, ih]
      · simp [List.filter, h, ih]

theorem store_filter_after_save (t : StorageState) (cat : CsvType) (acc : String)
    (dwm : DataWithMeta) (h : dwm.accountId = acc) :
    ((idbDatasetStore cat (idbInsertDataset (idbDeleteDatasets t cat acc) cat dwm)).filter
        (fun r => r.payload.accountId = acc)) =
      [{ id := nextIdOf cat t, payload := dwm }] := by
  rw [idbDatasetStore_insert, idbDatasetStore_delete, nextIdOf_delete, List.filter_append,
    filter_ne_then_eq]
  simp [h]

theorem getAccountData_of_single (t : StorageState) (acc : String) (cat : CsvType)
    (rec : IdbStored) (hacc : acc ≠ "")
    (hf : (idbDatasetStore cat t).filter (fun r => r.payload.accountId = acc) = [rec]) :
    getAccountData acc cat t =
      rec.payload.data.map (fun item => objSet item "accountId" (.str acc)) := by
  unfold getAccountData
  rw [if_neg hacc, hf]
  rfl

theorem objSet_stamp_processSavedRow (cat : CsvType) (dateFmt : JSValue → Option String)
    (acc : String) (item : Row) :
    objSet (processSavedRow cat dateFmt acc item) "accountId" (.str acc) =
      processSavedRow cat dateFmt acc item := by
  apply objSet_no_change
  simp only [processSavedRow]
  split_ifs
  · cases dateFmt (objGet (objSet item "accountId" (.str acc)) "date") with
    | some iso => rw [find?_objSet_ne _ (by decide), find?_objSet_self]
    | none => rw [find?_objSet_self]
  · cases dateFmt (objGet (objSet item "accountId" (.str acc)) "publish_time") with
    | some iso => rw [find?_objSet_ne _ (by decide), find?_objSet_self]
    | none => rw [find?_objSet_self]
  · rw [find?_objSet_self]

theorem map_stamp_processed (cat : CsvType) (dateFmt : JSValue → Option String)
    (acc : String) (rows : List Row) :
    (rows.map (processSavedRow cat dateFmt acc)).map
        (fun item => objSet item "accountId" (.str acc)) =
      rows.map (processSavedRow cat dateFmt acc) := by
  rw [List.map_map]
  apply List.map_congr_left
  intro x _
  exact objSet_stamp_processSavedRow cat dateFmt acc x

theorem saveAccountData_datasets (acc : String) (hacc : acc ≠ "") (cat : CsvType)
    (rows : List Row) (now dataSize : ℕ) (dateFmt : JSValue → Option String)
    (s : StorageState) :
    SameDatasets ((saveAccountData acc cat rows now dataSize dateFmt s).2)
      (idbInsertDataset
        (idbDeleteDatasets
          (if dataSize < 1000000 then
            lsSetDataset s cat acc
              { accountId := acc, dataType := cat, timestamp := now,
                data := rows.map (processSavedRow cat dateFmt acc) }
           else s) cat acc) cat
        { accountId := acc, dataType := cat, timestamp := now,
          data := rows.map (processSavedRow cat dateFmt acc) }) := by
  simp only [saveAccountData]
  rw [if_neg hacc]
  split
  · exact sameDatasets_refl _
  · rename_i r h
    exact sameDatasets_update h

/-- C1: two successive successful `saveAccountData` calls for the same
(account, category) leave the durable tier with exactly one dataset record
for that pair — the second call's rows (stamped with the owning account id
and with the primary-date field ISO-normalized by the save path) — and
`getAccountData` then returns exactly those rows of the second save, with no
union or remnant of the first save's rows. -/
theorem c1_replace_not_merge (s : StorageState) (acc : String) (cat : CsvType)
    (rowsA rowsB : List Row) (tA tB szA szB : ℕ) (dateFmt : JSValue → Option String)
    (hA : (saveAccountData acc cat rowsA tA szA dateFmt s).1 = true)
    (hB : (saveAccountData acc cat rowsB tB szB dateFmt
        ((saveAccountData acc cat rowsA tA szA dateFmt s).2)).1 = true) :
    getAccountData acc cat
        ((saveAccountData acc cat rowsB tB szB dateFmt
          ((saveAccountData acc cat rowsA tA szA dateFmt s).2)).2) =
      rowsB.map (processSavedRow cat dateFmt acc) ∧
    ((idbDatasetStore cat ((saveAccountData acc cat rowsB tB szB dateFmt
          ((saveAccountData acc cat rowsA tA szA dateFmt s).2)).2)).filter
        (fun r => r.payload.accountId = acc)).map (fun r => r.payload.data) =
      [rowsB.map (processSavedRow cat dateFmt acc)] := by
  have hacc : acc ≠ "" := by
    intro he
    rw [he] at hA
    simp [saveAccountData] at hA
  have hsame := saveAccountData_datasets acc hacc cat rowsB tB szB dateFmt
    ((saveAccountData acc cat rowsA tA szA dateFmt s).2)
  have hfilter := store_filter_after_save
    (if szB < 1000000 then
      lsSetDataset ((saveAccountData acc cat rowsA tA szA dateFmt s).2) cat acc
        { accountId := acc, dataType := cat, timestamp := tB,
          data := rowsB.map (processSavedRow cat dateFmt acc) }
     else (saveAccountData acc cat rowsA tA szA dateFmt s).2) cat acc
    { accountId := acc, dataType := cat, timestamp := tB,
      data := rowsB.map (processSavedRow cat dateFmt acc) } rfl
  constructor
  · rw [getAccountData_congr acc cat hsame]
    rw [getAccountData_of_single _ acc cat _ hacc hfilter]
    exact map_stamp_processed cat dateFmt acc rowsB
  · rw [idbDatasetStore_congr cat hsame, hfilter]
    rfl

/-- A concrete account for the C1 witness. -/
def c1Account : Account :=
  { id := "b1", name := "W", hasOverviewData := false, hasVideoData := false
    lastOverviewUpdate := none, lastVideoUpdate := none }

/-- The C1 witness starting state: the account exists in the fast tier. -/
def c1State : StorageState :=
  { lsAccounts := some [c1Account], lsOverviewData := [], lsVideoData := []
    idbAccounts := [], idbOverviewData := [], idbVideoData := []
    nextOverviewId := 0, nextVideoId := 0 }

/-- C1 witness: both saves succeed on a concrete state, and the load returns
exactly the second save's row. -/
theorem c1_witness :
    (saveAccountData "b1" .overview [[("likes", .num (.fin 1))]] 1 10
        (fun _ => none) c1State).1 = true ∧
    (saveAccountData "b1" .overview [[("likes", .num (.fin 2))]] 2 10 (fun _ => none)
        ((saveAccountData "b1" .overview [[("likes", .num (.fin 1))]] 1 10
          (fun _ => none) c1State).2)).1 = true ∧
    getAccountData "b1" .overview
        ((saveAccountData "b1" .overview [[("likes", .num (.fin 2))]] 2 10 (fun _ => none)
          ((saveAccountData "b1" .overview [[("likes", .num (.fin 1))]] 1 10
            (fun _ => none) c1State).2)).2) =
      [[("likes", .num (.fin 2)), ("accountId", .str "b1")]] := by
  have h1 : (saveAccountData "b1" .overview [[("likes", .num (.fin 1))]] 1 10
      (fun _ => none) c1State).1 = true := by decide
  have h2 : (saveAccountData "b1" .overview [[("likes", .num (.fin 2))]] 2 10 (fun _ => none)
      ((saveAccountData "b1" .overview [[("likes", .num (.fin 1))]] 1 10
        (fun _ => none) c1State).2)).1 = true := by decide
  have h3 := (c1_replace_not_merge c1State "b1" .overview
    [[("likes", .num (.fin 1))]] [[("likes", .num (.fin 2))]] 1 2 10 10
    (fun _ => none) h1 h2).1
  exact ⟨h1, h2, by rw [h3]; decide⟩

end TikTokStats
